import Mathlib

/-!
Verification of the products data-access module of the guitar-center
e-commerce backend (src/backend/server/server.js, second part of the file,
the module exporting createProduct, getProducts, getSingleProduct,
updateProduct, deleteProduct).

Shallow embedding conventions:
* JavaScript numbers are modelled as `Int`; every numeric operation the
  module performs on them (comparison with 0, truthiness) is exact on
  integers, so no floating-point behaviour is lost for the properties
  proved here.
* A JavaScript value passed as a SQL parameter is a `JSValue` (string or
  number).
* The `data` object passed to updateProduct is an `UpdateData` record of
  `Option` fields: `none` models an absent (undefined) property, `some v`
  a present property whose value is `v`.  JavaScript truthiness of the
  five fields is `truthyS` and `truthyI`: absent, empty string and 0 are
  falsy, everything else the module can see is truthy.
* `client.query` is modelled as an oracle of type `Oracle`: it receives
  the query text and the parameter list and either returns a result
  (resolved promise) or an error message (rejected promise, which the
  try/catch of each operation catches).  Each operation returns the
  envelope it produces together with the list of query calls it issued,
  so that "no query executed" is a statement about the second component.
* The relational store itself is not part of the repository; its
  behaviour on the five statement shapes is modelled from the spec,
  section 6, by `sqlUpdate`, `sqlDelete`, `sqlSelectAll` and
  `selectByIdOracle` over a database `DB := List ProductRow`.
-/

/-- A row of the `products` table: columns
id, name, description, price, category_id, image_url, created_at,
updated_at (spec section 6).  Timestamps are modelled as integers. -/
structure ProductRow where
  id : Int
  name : String
  description : String
  price : Int
  category_id : Int
  image_url : String
  created_at : Int
  updated_at : Int
deriving DecidableEq, Repr

/-- A JavaScript value used as a SQL parameter: a string or a number. -/
inductive JSValue where
  | str (s : String)
  | num (n : Int)
deriving DecidableEq, Repr

/-- The `data` argument of updateProduct: each recognised property is
either absent (`none`, JavaScript undefined) or present with a value. -/
structure UpdateData where
  name : Option String := none
  description : Option String := none
  price : Option Int := none
  category_id : Option Int := none
  image_url : Option String := none
deriving DecidableEq, Repr

/-- JavaScript truthiness of an optional string property: absent and the
empty string are falsy. -/
def truthyS : Option String → Bool
  | none => false
  | some s => !(s == "")

/-- JavaScript truthiness of an optional number property: absent and 0 are
falsy. -/
def truthyI : Option Int → Bool
  | none => false
  | some n => !(n == 0)

/-- The result object of a resolved `client.query` call: the returned rows
and the affected-row count. -/
structure QueryResult where
  rows : List ProductRow
  rowCount : Nat
deriving DecidableEq, Repr

/-- One call to `client.query`: the query text and the parameter array. -/
structure QueryCall where
  text : String
  params : List JSValue
deriving DecidableEq, Repr

/-- The store: maps a query text and parameters to a result (resolved
promise) or an error message (rejected promise). -/
def Oracle : Type := String → List JSValue → Except String QueryResult

/-- The result envelope of the five operations.  Each constructor is one of
the object shapes the module returns:
`product p` is success with a `product` property (p = none models the
JavaScript undefined produced by `rows[0]` on an empty row list),
`products l` is success with a `products` property,
`item r` is success with an `item` property,
`empty` is a bare success with no payload, and
`failure e` is success false with an `error` property. -/
inductive Envelope where
  | product (p : Option ProductRow)
  | products (ps : List ProductRow)
  | item (r : ProductRow)
  | empty
  | failure (error : String)
deriving DecidableEq, Repr

/-- The five columns updateProduct may set. -/
inductive Col where
  | name
  | description
  | price
  | category_id
  | image_url
deriving DecidableEq, Repr

/-- Column name of a field, as it appears in the SET clause. -/
def fieldColumn : Col → String
  | .name => "name"
  | .description => "description"
  | .price => "price"
  | .category_id => "category_id"
  | .image_url => "image_url"

/-- The (column, value) pairs updateProduct pushes, in source order: one
pair per recognised truthy property of `data` (server.js lines 132 to
154).  The source pushes sequentially onto two arrays; this list is the
common structured core from which both the `fields` strings and the
`values` array are rendered below. -/
def truthySets (data : UpdateData) : List (Col × JSValue) :=
  (if truthyS data.name then [(Col.name, JSValue.str (data.name.getD ""))] else []) ++
  (if truthyS data.description then
    [(Col.description, JSValue.str (data.description.getD ""))] else []) ++
  (if truthyI data.price then [(Col.price, JSValue.num (data.price.getD 0))] else []) ++
  (if truthyI data.category_id then
    [(Col.category_id, JSValue.num (data.category_id.getD 0))] else []) ++
  (if truthyS data.image_url then
    [(Col.image_url, JSValue.str (data.image_url.getD ""))] else [])

/-- Validation and field collection of updateProduct (server.js lines 129
to 159): if price is truthy and not positive the price error is returned
(line 141, an early return, so the pairs already pushed are discarded);
if no pair was pushed the no-fields error is returned (line 157);
otherwise the pushed pairs are returned. -/
def buildUpdateSets (data : UpdateData) : Except String (List (Col × JSValue)) :=
  if truthyI data.price && decide (data.price.getD 0 ≤ 0) then
    Except.error "Price must be a positive number."
  else
    let s := truthySets data
    if s.length == 0 then
      Except.error "No fields to update."
    else
      Except.ok s

/-- Rendering of the `fields` array entries: the source pushes
`col = $(fields.length + 1)`, so the pair at 0-based position i renders
as `col = $(i+1)`; the first argument is the number of pairs already
pushed. -/
def renderFieldsFrom : Nat → List (Col × JSValue) → List String
  | _, [] => []
  | n, fv :: rest =>
    (fieldColumn fv.1 ++ " = $" ++ toString (n + 1)) :: renderFieldsFrom (n + 1) rest

/-- The `fields` array of updateProduct, rendered from the structured
pairs. -/
def renderFields (sets : List (Col × JSValue)) : List String :=
  renderFieldsFrom 0 sets

/-- The dynamically assembled UPDATE text (server.js lines 162 to 167),
byte for byte including the template-literal whitespace. -/
def updateQueryText (fields : List String) : String :=
  "\n      UPDATE products \n      SET " ++ String.intercalate ", " fields ++
  " \n      WHERE id = $" ++ toString (fields.length + 1) ++
  " \n      RETURNING id, name, description, price, category_id, image_url, created_at, updated_at;\n    "

/-- The INSERT text of createProduct (server.js lines 54 to 57). -/
def createQueryText : String :=
  "\n      INSERT INTO products (name, description, price, category_id, image_url) \n      VALUES ($1, $2, $3, $4, $5) RETURNING id, name, description, price, category_id, image_url, created_at, updated_at;\n      "

/-- The SELECT text of getProducts (server.js lines 76 to 79). -/
def getProductsQueryText : String :=
  "\n      SELECT * FROM products\n      ORDER BY created_at DESC;\n    "

/-- The SELECT text of getSingleProduct (server.js lines 98 to 101). -/
def getSingleQueryText : String :=
  "\n      SELECT * FROM products\n      WHERE id = $1;\n      "

/-- The DELETE text of deleteProduct (server.js lines 196 to 198). -/
def deleteQueryText : String :=
  "\n      DELETE FROM products \n      WHERE id = $1;\n      "

/-- createProduct (server.js lines 44 to 67): inserts the five fields and
returns the first returned row (`rows[0]`, which is undefined hence
`none` when the store returns no row); a store error is caught and
returned as a failure envelope. -/
def createProduct (query : Oracle) (name description : String)
    (price category_id : Int) (image_url : String) : Envelope × List QueryCall :=
  let c : QueryCall :=
    ⟨createQueryText,
     [JSValue.str name, JSValue.str description, JSValue.num price,
      JSValue.num category_id, JSValue.str image_url]⟩
  match query c.text c.params with
  | Except.error e => (Envelope.failure e, [c])
  | Except.ok res => (Envelope.product res.rows.head?, [c])

/-- getProducts (server.js lines 73 to 87): selects all rows ordered by
created_at descending and returns them; a store error is caught and
returned as a failure envelope. -/
def getProducts (query : Oracle) : Envelope × List QueryCall :=
  let c : QueryCall := ⟨getProductsQueryText, []⟩
  match query c.text c.params with
  | Except.error e => (Envelope.failure e, [c])
  | Except.ok res => (Envelope.products res.rows, [c])

/-- getSingleProduct (server.js lines 94 to 118): selects by id; zero rows
give the item-not-found failure (line 108), otherwise `rows[0]` is
returned as the item; a store error is caught and returned as a failure
envelope. -/
def getSingleProduct (query : Oracle) (product_id : Int) : Envelope × List QueryCall :=
  let c : QueryCall := ⟨getSingleQueryText, [JSValue.num product_id]⟩
  match query c.text c.params with
  | Except.error e => (Envelope.failure e, [c])
  | Except.ok res =>
    match res.rows with
    | [] => (Envelope.failure "Item not found", [c])
    | r :: _ => (Envelope.item r, [c])

/-- updateProduct (server.js lines 126 to 185): collects the truthy
fields (with the price validation and the at-least-one-field check,
`buildUpdateSets`); on validation failure returns without querying; on
success builds the dynamic UPDATE text, appends product_id as the last
parameter (line 168) and executes it; zero returned rows give the
product-not-found failure (line 175), otherwise `rows[0]` is the updated
product; a store error is caught and returned as a failure envelope. -/
def updateProduct (query : Oracle) (product_id : Int) (data : UpdateData) :
    Envelope × List QueryCall :=
  match buildUpdateSets data with
  | Except.error m => (Envelope.failure m, [])
  | Except.ok sets =>
    let c : QueryCall :=
      ⟨updateQueryText (renderFields sets),
       sets.map Prod.snd ++ [JSValue.num product_id]⟩
    match query c.text c.params with
    | Except.error e => (Envelope.failure e, [c])
    | Except.ok res =>
      match res.rows with
      | [] => (Envelope.failure "Product not found.", [c])
      | r :: _ => (Envelope.product (some r), [c])

/-- deleteProduct (server.js lines 192 to 215): deletes by id; a zero
rowCount gives the product-not-found failure (line 205), otherwise a bare
success; a store error is caught and returned as a failure envelope. -/
def deleteProduct (query : Oracle) (product_id : Int) : Envelope × List QueryCall :=
  let c : QueryCall := ⟨deleteQueryText, [JSValue.num product_id]⟩
  match query c.text c.params with
  | Except.error e => (Envelope.failure e, [c])
  | Except.ok res =>
    if res.rowCount == 0 then (Envelope.failure "Product not found.", [c])
    else (Envelope.empty, [c])

/-! ## Semantic model of the relational store

Modelled from the spec: the repository contains only the data-access
module, not the SQL engine; section 6 of the spec fixes the five
statement shapes, and the following definitions give them their standard
relational meaning over a database that is a list of rows. -/

/-- The products table. -/
abbrev DB := List ProductRow

/-- Assignment of one SET pair to a row.  A pair whose value has the
wrong shape for its column leaves the row unchanged; the pairs built by
`truthySets` always have the right shape. -/
def setField (f : Col) (v : JSValue) (r : ProductRow) : ProductRow :=
  match f, v with
  | Col.name, JSValue.str s => { r with name := s }
  | Col.description, JSValue.str s => { r with description := s }
  | Col.price, JSValue.num n => { r with price := n }
  | Col.category_id, JSValue.num n => { r with category_id := n }
  | Col.image_url, JSValue.str s => { r with image_url := s }
  | _, _ => r

/-- Assignment of a whole SET clause to a row, left to right. -/
def applySets (sets : List (Col × JSValue)) (r : ProductRow) : ProductRow :=
  sets.foldl (fun r fv => setField fv.1 fv.2 r) r

/-- Modelled from the spec: `UPDATE products SET ... WHERE id = ?
RETURNING ...` updates every row whose id matches and returns the updated
matching rows. -/
def sqlUpdate (db : DB) (pid : Int) (sets : List (Col × JSValue)) :
    List ProductRow × DB :=
  ((db.filter (fun r => r.id == pid)).map (applySets sets),
   db.map (fun r => if r.id == pid then applySets sets r else r))

/-- Modelled from the spec: `DELETE FROM products WHERE id = ?` removes
every row whose id matches and reports the number of removed rows. -/
def sqlDelete (db : DB) (pid : Int) : Nat × DB :=
  ((db.filter (fun r => r.id == pid)).length,
   db.filter (fun r => !(r.id == pid)))

/-- Descending creation-time order, the ORDER BY of getProducts. -/
def createdAtDesc (a b : ProductRow) : Bool :=
  decide (b.created_at ≤ a.created_at)

/-- Modelled from the spec: `SELECT * FROM products ORDER BY created_at
DESC` returns every row, sorted by created_at descending. -/
def sqlSelectAll (db : DB) : List ProductRow :=
  db.mergeSort createdAtDesc

/-- Store oracle answering the select-by-id statement from `db`. -/
def selectByIdOracle (db : DB) : Oracle := fun _ params =>
  match params with
  | [JSValue.num x] =>
    Except.ok ⟨db.filter (fun r => r.id == x), (db.filter (fun r => r.id == x)).length⟩
  | _ => Except.error "invalid parameters"

/-- Store oracle answering the select-all statement from `db`. -/
def selectAllOracle (db : DB) : Oracle := fun _ _ =>
  Except.ok ⟨sqlSelectAll db, (sqlSelectAll db).length⟩

/-- Store oracle answering the delete statement from `db` (the removed
rows themselves are what `sqlDelete` drops; the result carries the
rowCount the driver reports). -/
def deleteDBOracle (db : DB) : Oracle := fun _ params =>
  match params with
  | [JSValue.num x] => Except.ok ⟨[], (sqlDelete db x).1⟩
  | _ => Except.error "invalid parameters"

/-- A store that rejects every query with the given message. -/
def errOracle (msg : String) : Oracle := fun _ _ => Except.error msg

/-- getProducts run against the semantic store. -/
def getProductsDB (db : DB) : Envelope :=
  (getProducts (selectAllOracle db)).1

/-- getSingleProduct run against the semantic store. -/
def getSingleProductDB (db : DB) (product_id : Int) : Envelope :=
  (getSingleProduct (selectByIdOracle db) product_id).1

/-- updateProduct run against the semantic store: the same validation and
control flow as `updateProduct` (server.js lines 129 to 179), with the
query step interpreted by `sqlUpdate`; the second component is the table
after the call. -/
def updateProductDB (db : DB) (product_id : Int) (data : UpdateData) :
    Envelope × DB :=
  match buildUpdateSets data with
  | Except.error m => (Envelope.failure m, db)
  | Except.ok sets =>
    let res := sqlUpdate db product_id sets
    match res.1 with
    | [] => (Envelope.failure "Product not found.", res.2)
    | r :: _ => (Envelope.product (some r), res.2)

/-- deleteProduct run against the semantic store; the second component is
the table after the call. -/
def deleteProductDB (db : DB) (product_id : Int) : Envelope × DB :=
  ((deleteProduct (deleteDBOracle db) product_id).1, (sqlDelete db product_id).2)

/-- A sample stored row used to instantiate universally quantified
statements. -/
def sampleRow : ProductRow :=
  ⟨1, "Guitar", "Six strings", 500, 3, "http://x/guitar.png", 10, 10⟩

/-- A store oracle that resolves every query with the single sample row. -/
def sampleOkOracle : Oracle := fun _ _ => Except.ok ⟨[sampleRow], 1⟩

/-! ## Helper lemmas -/

/-- A successful `buildUpdateSets` returns exactly the truthy pairs. -/
theorem buildUpdateSets_ok_eq (data : UpdateData) (sets : List (Col × JSValue))
    (h : buildUpdateSets data = Except.ok sets) : sets = truthySets data := by
  unfold buildUpdateSets at h
  split at h
  · exact absurd h (by simp)
  · simp only [] at h
    split at h
    · exact absurd h (by simp)
    · exact (Except.ok.injEq _ _ ▸ h).symm

/-- updateProduct and updateProductDB only look at `data` through
`buildUpdateSets`. -/
theorem updateProduct_congr (q : Oracle) (pid : Int) (d1 d2 : UpdateData)
    (h : buildUpdateSets d1 = buildUpdateSets d2) :
    updateProduct q pid d1 = updateProduct q pid d2 ∧
    ∀ db : DB, updateProductDB db pid d1 = updateProductDB db pid d2 := by
  constructor
  · unfold updateProduct
    rw [h]
  · intro db
    unfold updateProductDB
    rw [h]

/-! ## Claim theorems -/

/-- C3: for every input and every store-level error raised by the
underlying query call, each of the five operations catches the error and
returns a failure envelope carrying the underlying error message; in the
embedding every operation is a total function into envelopes, so no
exception passes the module boundary.  For updateProduct the store is
only reached when validation succeeds (buildUpdateSets returns ok). -/
theorem C3_store_errors_become_failure_envelopes (msg : String) :
    (∀ n d p c i, (createProduct (errOracle msg) n d p c i).1 = Envelope.failure msg) ∧
    (getProducts (errOracle msg)).1 = Envelope.failure msg ∧
    (∀ pid, (getSingleProduct (errOracle msg) pid).1 = Envelope.failure msg) ∧
    (∀ pid data sets, buildUpdateSets data = Except.ok sets →
      (updateProduct (errOracle msg) pid data).1 = Envelope.failure msg) ∧
    (∀ pid, (deleteProduct (errOracle msg) pid).1 = Envelope.failure msg) := by
  refine ⟨fun n d p c i => rfl, rfl, fun pid => rfl, fun pid data sets h => ?_, fun pid => rfl⟩
  simp [updateProduct, h, errOracle]

/-- Witness for C3 at a concrete message and concrete inputs. -/
theorem C3_store_errors_become_failure_envelopes_witness :
    (createProduct (errOracle "connection lost") "Mug" "Ceramic mug" 9 3 "http://x/mug.png").1 =
      Envelope.failure "connection lost" ∧
    (updateProduct (errOracle "connection lost") 1 { name := some "Mug" }).1 =
      Envelope.failure "connection lost" ∧
    (deleteProduct (errOracle "connection lost") 1).1 = Envelope.failure "connection lost" :=
  ⟨(C3_store_errors_become_failure_envelopes "connection lost").1 "Mug" "Ceramic mug" 9 3 "http://x/mug.png",
   (C3_store_errors_become_failure_envelopes "connection lost").2.2.2.1 1 { name := some "Mug" }
     [(Col.name, JSValue.str "Mug")] rfl,
   (C3_store_errors_become_failure_envelopes "connection lost").2.2.2.2 1⟩

/-- C10: the not-found message is not uniform: against a store holding no
row with the requested id, getSingleProduct fails with "Item not found"
while updateProduct (on any input passing validation) and deleteProduct
fail with "Product not found.", and the two messages differ. -/
theorem C10_not_found_messages_differ (db : DB) (pid : Int)
    (hnone : ∀ r ∈ db, r.id ≠ pid) :
    getSingleProductDB db pid = Envelope.failure "Item not found" ∧
    (∀ data sets, buildUpdateSets data = Except.ok sets →
      (updateProductDB db pid data).1 = Envelope.failure "Product not found.") ∧
    (deleteProductDB db pid).1 = Envelope.failure "Product not found." ∧
    "Item not found" ≠ "Product not found." := by
  have hfilter : db.filter (fun r => r.id == pid) = [] := by
    rw [List.filter_eq_nil_iff]
    intro r hr
    simpa using hnone r hr
  refine ⟨?_, fun data sets h => ?_, ?_, by decide⟩
  · simp [getSingleProductDB, getSingleProduct, selectByIdOracle, hfilter]
  · simp [updateProductDB, h, sqlUpdate, hfilter]
  · simp [deleteProductDB, deleteProduct, deleteDBOracle, sqlDelete, hfilter]

/-- Witness for C10 at a concrete store and id. -/
theorem C10_not_found_messages_differ_witness :
    getSingleProductDB [sampleRow] 2 = Envelope.failure "Item not found" ∧
    (updateProductDB [sampleRow] 2 { name := some "Mug" }).1 = Envelope.failure "Product not found." ∧
    (deleteProductDB [sampleRow] 2).1 = Envelope.failure "Product not found." :=
  ⟨(C10_not_found_messages_differ [sampleRow] 2 (by decide)).1,
   (C10_not_found_messages_differ [sampleRow] 2 (by decide)).2.1 { name := some "Mug" }
     [(Col.name, JSValue.str "Mug")] rfl,
   (C10_not_found_messages_differ [sampleRow] 2 (by decide)).2.2.1⟩

/-- C5: an input with no recognised truthy field makes updateProduct
return the no-fields validation failure without executing any query, and
over any store the table is unchanged. -/
theorem C5_empty_update_rejected_without_query (q : Oracle) (pid : Int)
    (data : UpdateData)
    (h1 : truthyS data.name = false) (h2 : truthyS data.description = false)
    (h3 : truthyI data.price = false) (h4 : truthyI data.category_id = false)
    (h5 : truthyS data.image_url = false) :
    updateProduct q pid data = (Envelope.failure "No fields to update.", []) ∧
    ∀ db : DB, updateProductDB db pid data = (Envelope.failure "No fields to update.", db) := by
  have hb : buildUpdateSets data = Except.error "No fields to update." := by
    simp [buildUpdateSets, truthySets, h1, h2, h3, h4, h5]
  exact ⟨by simp [updateProduct, hb], fun db => by simp [updateProductDB, hb]⟩

/-- Witness for C5 at a concrete oracle, id and empty payload. -/
theorem C5_empty_update_rejected_without_query_witness :
    updateProduct sampleOkOracle 1 {} = (Envelope.failure "No fields to update.", []) ∧
    ∀ db : DB, updateProductDB db 1 {} = (Envelope.failure "No fields to update.", db) :=
  C5_empty_update_rejected_without_query sampleOkOracle 1 {} rfl rfl rfl rfl rfl

/-- C1 as stated is false: "price is present and ≤ 0" includes a present
price of 0, which JavaScript truthiness treats as absent.  At id 1 with
input price 0 and name "x" against a one-row store, updateProduct does
not return the price error, executes a query, and the stored row
changes. -/
theorem C1_counterexample :
    ¬ (∀ (q : Oracle) (db : DB) (pid : Int) (data : UpdateData) (p : Int),
        data.price = some p → p ≤ 0 →
        updateProduct q pid data =
          (Envelope.failure "Price must be a positive number.", []) ∧
        (updateProductDB db pid data).2 = db) := by
  intro h
  have hc := h sampleOkOracle [sampleRow] 1 { name := some "x", price := some 0 } 0 rfl le_rfl
  revert hc
  decide

/-- C1 amended: for every id and every partial-update input in which
price is present with a truthy (nonzero) value that is ≤ 0, updateProduct
returns the price-validation failure envelope, executes no query, and
over any store the table is unchanged. -/
theorem C1_negative_price_rejected_without_query (q : Oracle) (db : DB)
    (pid : Int) (data : UpdateData) (p : Int)
    (hp : data.price = some p) (h0 : p ≠ 0) (hle : p ≤ 0) :
    updateProduct q pid data =
      (Envelope.failure "Price must be a positive number.", []) ∧
    updateProductDB db pid data =
      (Envelope.failure "Price must be a positive number.", db) := by
  have hb : buildUpdateSets data = Except.error "Price must be a positive number." := by
    simp [buildUpdateSets, truthyI, hp, h0, hle]
  exact ⟨by simp [updateProduct, hb], by simp [updateProductDB, hb]⟩

/-- Witness for the amended C1 at price -5. -/
theorem C1_negative_price_rejected_without_query_witness :
    updateProduct sampleOkOracle 1 { price := some (-5) } =
      (Envelope.failure "Price must be a positive number.", []) ∧
    updateProductDB [sampleRow] 1 { price := some (-5) } =
      (Envelope.failure "Price must be a positive number.", [sampleRow]) :=
  C1_negative_price_rejected_without_query sampleOkOracle [sampleRow] 1
    { price := some (-5) } (-5) rfl (by decide) (by decide)

/-- C4: a falsy present field value (price 0, or an empty-string name,
description or image_url, or category_id 0) is treated exactly as an
absent field: updateProduct and updateProductDB behave identically on the
input with that field removed, so the field is not validated, enters no
SET clause, and leaves the stored value unchanged; in addition a price of
0 contributes no SET pair. -/
theorem C4_falsy_fields_treated_as_absent (q : Oracle) (pid : Int) (db : DB)
    (data : UpdateData) :
    (data.price = some 0 →
      updateProduct q pid data = updateProduct q pid { data with price := none } ∧
      updateProductDB db pid data = updateProductDB db pid { data with price := none } ∧
      Col.price ∉ (truthySets data).map Prod.fst) ∧
    (data.name = some "" →
      updateProduct q pid data = updateProduct q pid { data with name := none } ∧
      updateProductDB db pid data = updateProductDB db pid { data with name := none } ∧
      Col.name ∉ (truthySets data).map Prod.fst) ∧
    (data.description = some "" →
      updateProduct q pid data = updateProduct q pid { data with description := none } ∧
      updateProductDB db pid data = updateProductDB db pid { data with description := none } ∧
      Col.description ∉ (truthySets data).map Prod.fst) ∧
    (data.category_id = some 0 →
      updateProduct q pid data = updateProduct q pid { data with category_id := none } ∧
      updateProductDB db pid data = updateProductDB db pid { data with category_id := none } ∧
      Col.category_id ∉ (truthySets data).map Prod.fst) ∧
    (data.image_url = some "" →
      updateProduct q pid data = updateProduct q pid { data with image_url := none } ∧
      updateProductDB db pid data = updateProductDB db pid { data with image_url := none } ∧
      Col.image_url ∉ (truthySets data).map Prod.fst) := by
  refine ⟨fun h => ?_, fun h => ?_, fun h => ?_, fun h => ?_, fun h => ?_⟩ <;>
  · constructor
    · exact (updateProduct_congr q pid _ _ (by simp [buildUpdateSets, truthySets, truthyS, truthyI, h])).1
    constructor
    · exact (updateProduct_congr q pid _ _ (by simp [buildUpdateSets, truthySets, truthyS, truthyI, h])).2 db
    · simp [truthySets, truthyS, truthyI, h]

/-- Witness for C4: a present price of 0 next to a truthy name behaves as
if price were absent. -/
theorem C4_falsy_fields_treated_as_absent_witness :
    updateProduct sampleOkOracle 1 { name := some "Bass", price := some 0 } =
      updateProduct sampleOkOracle 1 { name := some "Bass", price := none } ∧
    updateProductDB [sampleRow] 1 { name := some "Bass", price := some 0 } =
      updateProductDB [sampleRow] 1 { name := some "Bass", price := none } ∧
    Col.price ∉ (truthySets { name := some "Bass", price := some 0 }).map Prod.fst :=
  (C4_falsy_fields_treated_as_absent sampleOkOracle 1 [sampleRow]
    { name := some "Bass", price := some 0 }).1 rfl

/-! ## Frame lemmas for applySets -/

/-- setField never changes the id column. -/
theorem setField_id (f : Col) (v : JSValue) (r : ProductRow) :
    (setField f v r).id = r.id := by
  cases f <;> cases v <;> rfl

/-- setField never changes the created_at column. -/
theorem setField_created_at (f : Col) (v : JSValue) (r : ProductRow) :
    (setField f v r).created_at = r.created_at := by
  cases f <;> cases v <;> rfl

/-- setField never changes the updated_at column. -/
theorem setField_updated_at (f : Col) (v : JSValue) (r : ProductRow) :
    (setField f v r).updated_at = r.updated_at := by
  cases f <;> cases v <;> rfl

/-- Unrolling applySets one pair at a time. -/
theorem applySets_cons (fv : Col × JSValue) (rest : List (Col × JSValue))
    (r : ProductRow) :
    applySets (fv :: rest) r = applySets rest (setField fv.1 fv.2 r) := rfl

/-- applySets never changes the id column. -/
theorem applySets_id (sets : List (Col × JSValue)) :
    ∀ r : ProductRow, (applySets sets r).id = r.id := by
  induction sets with
  | nil => exact fun r => rfl
  | cons fv rest ih =>
    intro r
    rw [applySets_cons, ih, setField_id]

/-- applySets never changes the created_at column. -/
theorem applySets_created_at (sets : List (Col × JSValue)) :
    ∀ r : ProductRow, (applySets sets r).created_at = r.created_at := by
  induction sets with
  | nil => exact fun r => rfl
  | cons fv rest ih =>
    intro r
    rw [applySets_cons, ih, setField_created_at]

/-- applySets never changes the updated_at column. -/
theorem applySets_updated_at (sets : List (Col × JSValue)) :
    ∀ r : ProductRow, (applySets sets r).updated_at = r.updated_at := by
  induction sets with
  | nil => exact fun r => rfl
  | cons fv rest ih =>
    intro r
    rw [applySets_cons, ih, setField_updated_at]

/-- setField on a column other than name keeps name. -/
theorem setField_name_of_ne (f : Col) (v : JSValue) (r : ProductRow)
    (h : f ≠ Col.name) : (setField f v r).name = r.name := by
  cases f <;> cases v <;> simp_all [setField]

/-- setField on a column other than description keeps description. -/
theorem setField_description_of_ne (f : Col) (v : JSValue) (r : ProductRow)
    (h : f ≠ Col.description) : (setField f v r).description = r.description := by
  cases f <;> cases v <;> simp_all [setField]

/-- setField on a column other than price keeps price. -/
theorem setField_price_of_ne (f : Col) (v : JSValue) (r : ProductRow)
    (h : f ≠ Col.price) : (setField f v r).price = r.price := by
  cases f <;> cases v <;> simp_all [setField]

/-- setField on a column other than category_id keeps category_id. -/
theorem setField_category_id_of_ne (f : Col) (v : JSValue) (r : ProductRow)
    (h : f ≠ Col.category_id) : (setField f v r).category_id = r.category_id := by
  cases f <;> cases v <;> simp_all [setField]

/-- setField on a column other than image_url keeps image_url. -/
theorem setField_image_url_of_ne (f : Col) (v : JSValue) (r : ProductRow)
    (h : f ≠ Col.image_url) : (setField f v r).image_url = r.image_url := by
  cases f <;> cases v <;> simp_all [setField]

/-- applySets keeps name when no pair targets the name column. -/
theorem applySets_name (sets : List (Col × JSValue))
    (h : Col.name ∉ sets.map Prod.fst) :
    ∀ r : ProductRow, (applySets sets r).name = r.name := by
  induction sets with
  | nil => exact fun r => rfl
  | cons fv rest ih =>
    intro r
    simp only [List.map_cons, List.mem_cons, not_or] at h
    rw [applySets_cons, ih h.2, setField_name_of_ne fv.1 fv.2 r (Ne.symm h.1)]

/-- applySets keeps description when no pair targets it. -/
theorem applySets_description (sets : List (Col × JSValue))
    (h : Col.description ∉ sets.map Prod.fst) :
    ∀ r : ProductRow, (applySets sets r).description = r.description := by
  induction sets with
  | nil => exact fun r => rfl
  | cons fv rest ih =>
    intro r
    simp only [List.map_cons, List.mem_cons, not_or] at h
    rw [applySets_cons, ih h.2, setField_description_of_ne fv.1 fv.2 r (Ne.symm h.1)]

/-- applySets keeps price when no pair targets it. -/
theorem applySets_price (sets : List (Col × JSValue))
    (h : Col.price ∉ sets.map Prod.fst) :
    ∀ r : ProductRow, (applySets sets r).price = r.price := by
  induction sets with
  | nil => exact fun r => rfl
  | cons fv rest ih =>
    intro r
    simp only [List.map_cons, List.mem_cons, not_or] at h
    rw [applySets_cons, ih h.2, setField_price_of_ne fv.1 fv.2 r (Ne.symm h.1)]

/-- applySets keeps category_id when no pair targets it. -/
theorem applySets_category_id (sets : List (Col × JSValue))
    (h : Col.category_id ∉ sets.map Prod.fst) :
    ∀ r : ProductRow, (applySets sets r).category_id = r.category_id := by
  induction sets with
  | nil => exact fun r => rfl
  | cons fv rest ih =>
    intro r
    simp only [List.map_cons, List.mem_cons, not_or] at h
    rw [applySets_cons, ih h.2, setField_category_id_of_ne fv.1 fv.2 r (Ne.symm h.1)]

/-- applySets keeps image_url when no pair targets it. -/
theorem applySets_image_url (sets : List (Col × JSValue))
    (h : Col.image_url ∉ sets.map Prod.fst) :
    ∀ r : ProductRow, (applySets sets r).image_url = r.image_url := by
  induction sets with
  | nil => exact fun r => rfl
  | cons fv rest ih =>
    intro r
    simp only [List.map_cons, List.mem_cons, not_or] at h
    rw [applySets_cons, ih h.2, setField_image_url_of_ne fv.1 fv.2 r (Ne.symm h.1)]

/-- An absent property contributes no SET pair for its column. -/
theorem name_not_in_truthySets (data : UpdateData) (h : data.name = none) :
    Col.name ∉ (truthySets data).map Prod.fst := by
  simp [truthySets, truthyS, h]

/-- An absent property contributes no SET pair for its column. -/
theorem description_not_in_truthySets (data : UpdateData)
    (h : data.description = none) :
    Col.description ∉ (truthySets data).map Prod.fst := by
  simp [truthySets, truthyS, h]

/-- An absent property contributes no SET pair for its column. -/
theorem price_not_in_truthySets (data : UpdateData) (h : data.price = none) :
    Col.price ∉ (truthySets data).map Prod.fst := by
  simp [truthySets, truthyI, h]

/-- An absent property contributes no SET pair for its column. -/
theorem category_id_not_in_truthySets (data : UpdateData)
    (h : data.category_id = none) :
    Col.category_id ∉ (truthySets data).map Prod.fst := by
  simp [truthySets, truthyI, h]

/-- An absent property contributes no SET pair for its column. -/
theorem image_url_not_in_truthySets (data : UpdateData)
    (h : data.image_url = none) :
    Col.image_url ∉ (truthySets data).map Prod.fst := by
  simp [truthySets, truthyS, h]

/-- The frame relation of claim C2 between a stored row before and after
one updateProduct call targeting id `pid` with input `data`: the
immutable and server-generated columns are unchanged, every column whose
property is absent from the input is unchanged, and a row with a
different id is unchanged altogether. -/
def retainsUnsupplied (pid : Int) (data : UpdateData)
    (old new : ProductRow) : Prop :=
  new.id = old.id ∧
  new.created_at = old.created_at ∧
  new.updated_at = old.updated_at ∧
  (data.name = none → new.name = old.name) ∧
  (data.description = none → new.description = old.description) ∧
  (data.price = none → new.price = old.price) ∧
  (data.category_id = none → new.category_id = old.category_id) ∧
  (data.image_url = none → new.image_url = old.image_url) ∧
  (old.id ≠ pid → new = old)

/-- The relation holds reflexively. -/
theorem retainsUnsupplied_refl (pid : Int) (data : UpdateData)
    (r : ProductRow) : retainsUnsupplied pid data r r :=
  ⟨rfl, rfl, rfl, fun _ => rfl, fun _ => rfl, fun _ => rfl, fun _ => rfl,
   fun _ => rfl, fun _ => rfl⟩

/-- C2: a successful updateProduct changes only the fields supplied in
the input: row for row, the table after the call is related to the table
before it by `retainsUnsupplied`, so the id and the timestamps are kept,
every field absent from the input keeps its prior stored value, and rows
with a different id are untouched. -/
theorem C2_successful_update_changes_only_supplied_fields (db : DB)
    (pid : Int) (data : UpdateData) (r : ProductRow)
    (_hs : (updateProductDB db pid data).1 = Envelope.product (some r)) :
    List.Forall₂ (retainsUnsupplied pid data) db (updateProductDB db pid data).2 := by
  cases hb : buildUpdateSets data with
  | error m =>
    simp only [updateProductDB, hb]
    exact List.forall₂_same.mpr fun x _ => retainsUnsupplied_refl pid data x
  | ok sets =>
    have hsets := buildUpdateSets_ok_eq data sets hb
    have hsnd : (updateProductDB db pid data).2 =
        db.map (fun x => if x.id == pid then applySets sets x else x) := by
      simp only [updateProductDB, hb, sqlUpdate]
      cases (db.filter (fun x => x.id == pid)).map (applySets sets) <;> rfl
    rw [hsnd]
    have key : ∀ x : ProductRow,
        retainsUnsupplied pid data x (if x.id == pid then applySets sets x else x) := by
      intro x
      by_cases hx : x.id = pid
      · have hif : (if x.id == pid then applySets sets x else x) = applySets sets x := by
          simp [hx]
        rw [hif]
        refine ⟨applySets_id sets x, applySets_created_at sets x,
          applySets_updated_at sets x, fun h => ?_, fun h => ?_, fun h => ?_,
          fun h => ?_, fun h => ?_, fun h => absurd hx h⟩
        · exact applySets_name sets (hsets ▸ name_not_in_truthySets data h) x
        · exact applySets_description sets (hsets ▸ description_not_in_truthySets data h) x
        · exact applySets_price sets (hsets ▸ price_not_in_truthySets data h) x
        · exact applySets_category_id sets (hsets ▸ category_id_not_in_truthySets data h) x
        · exact applySets_image_url sets (hsets ▸ image_url_not_in_truthySets data h) x
      · have hif : (if x.id == pid then applySets sets x else x) = x := by
          simp [hx]
        rw [hif]
        exact retainsUnsupplied_refl pid data x
    clear _hs hsnd
    induction db with
    | nil => exact List.Forall₂.nil
    | cons x xs ih => exact List.Forall₂.cons (key x) ih

/-- Witness for C2: updating only the description of the sample row. -/
theorem C2_successful_update_changes_only_supplied_fields_witness :
    List.Forall₂ (retainsUnsupplied 1 { description := some "Nylon strings" })
      [sampleRow]
      (updateProductDB [sampleRow] 1 { description := some "Nylon strings" }).2 :=
  C2_successful_update_changes_only_supplied_fields [sampleRow] 1
    { description := some "Nylon strings" }
    ⟨1, "Guitar", "Nylon strings", 500, 3, "http://x/guitar.png", 10, 10⟩
    (by decide)

/-- C6: against a store holding its rows in `db`, getSingleProduct
returns a success envelope carrying the single row matching the id when
one exists, and the item-not-found failure when zero rows match; it is a
total function, so it never throws. -/
theorem C6_getSingleProduct_found_or_not_found (db : DB) (pid : Int) :
    ((∀ r ∈ db, r.id ≠ pid) →
      getSingleProductDB db pid = Envelope.failure "Item not found") ∧
    (∀ r, r ∈ db → r.id = pid → (∀ r2 ∈ db, r2.id = pid → r2 = r) →
      getSingleProductDB db pid = Envelope.item r) := by
  constructor
  · intro hnone
    have hfilter : db.filter (fun x => x.id == pid) = [] := by
      rw [List.filter_eq_nil_iff]
      intro x hx
      simpa using hnone x hx
    simp [getSingleProductDB, getSingleProduct, selectByIdOracle, hfilter]
  · intro r hr hid huniq
    cases hf : db.filter (fun x => x.id == pid) with
    | nil =>
      exfalso
      have hmem : r ∈ db.filter (fun x => x.id == pid) := by
        simp [List.mem_filter, hr, hid]
      rw [hf] at hmem
      exact List.not_mem_nil _ hmem
    | cons x xs =>
      have hx : x ∈ db.filter (fun y => y.id == pid) := by
        rw [hf]
        exact List.mem_cons_self x xs
      rw [List.mem_filter] at hx
      have hxr : x = r := huniq x hx.1 (by simpa using hx.2)
      subst hxr
      simp [getSingleProductDB, getSingleProduct, selectByIdOracle, hf]

/-- Witness for C6: the sample row is found at its own id, a different id
is not found. -/
theorem C6_getSingleProduct_found_or_not_found_witness :
    getSingleProductDB [sampleRow] 2 = Envelope.failure "Item not found" ∧
    getSingleProductDB [sampleRow] 1 = Envelope.item sampleRow :=
  ⟨(C6_getSingleProduct_found_or_not_found [sampleRow] 2).1 (by decide),
   (C6_getSingleProduct_found_or_not_found [sampleRow] 1).2 sampleRow
     (by decide) rfl (by decide)⟩

/-- C7: deleteProduct removes exactly the rows matching the id and
returns the bare success envelope when a row was affected, and the
product-not-found failure when zero rows were affected. -/
theorem C7_deleteProduct_removes_row_or_not_found (db : DB) (pid : Int) :
    (∀ r, r ∈ (deleteProductDB db pid).2 ↔ (r ∈ db ∧ r.id ≠ pid)) ∧
    ((∃ r ∈ db, r.id = pid) → (deleteProductDB db pid).1 = Envelope.empty) ∧
    ((∀ r ∈ db, r.id ≠ pid) →
      (deleteProductDB db pid).1 = Envelope.failure "Product not found.") := by
  refine ⟨fun r => ?_, fun hex => ?_, fun hnone => ?_⟩
  · simp [deleteProductDB, sqlDelete, List.mem_filter]
  · obtain ⟨r, hr, hid⟩ := hex
    have hmem : r ∈ db.filter (fun x => x.id == pid) := by
      simp [List.mem_filter, hr, hid]
    have hne : (db.filter (fun x => x.id == pid)).length ≠ 0 := by
      intro h0
      rw [List.length_eq_zero] at h0
      rw [h0] at hmem
      exact List.not_mem_nil _ hmem
    simp [deleteProductDB, deleteProduct, deleteDBOracle, sqlDelete, hne]
  · have hfilter : db.filter (fun x => x.id == pid) = [] := by
      rw [List.filter_eq_nil_iff]
      intro x hx
      simpa using hnone x hx
    simp [deleteProductDB, deleteProduct, deleteDBOracle, sqlDelete, hfilter]

/-- Witness for C7: deleting the sample row succeeds and empties the
table, deleting a missing id fails. -/
theorem C7_deleteProduct_removes_row_or_not_found_witness :
    (sampleRow ∈ (deleteProductDB [sampleRow] 1).2 ↔
      (sampleRow ∈ [sampleRow] ∧ sampleRow.id ≠ 1)) ∧
    (deleteProductDB [sampleRow] 1).1 = Envelope.empty ∧
    (deleteProductDB [sampleRow] 2).1 = Envelope.failure "Product not found." :=
  ⟨(C7_deleteProduct_removes_row_or_not_found [sampleRow] 1).1 sampleRow,
   (C7_deleteProduct_removes_row_or_not_found [sampleRow] 1).2.1
     ⟨sampleRow, List.mem_cons_self sampleRow [], rfl⟩,
   (C7_deleteProduct_removes_row_or_not_found [sampleRow] 2).2.2 (by decide)⟩

/-- C8: getProducts returns every stored row (a permutation of the
table, so no filtering, pagination or limit) ordered by creation time
descending. -/
theorem C8_getProducts_returns_all_rows_newest_first (db : DB) :
    ∃ rows : List ProductRow,
      getProductsDB db = Envelope.products rows ∧
      rows.Perm db ∧
      rows.Pairwise (fun a b => b.created_at ≤ a.created_at) := by
  refine ⟨sqlSelectAll db, rfl, List.mergeSort_perm db createdAtDesc, ?_⟩
  have htrans : ∀ a b c : ProductRow,
      createdAtDesc a b → createdAtDesc b c → createdAtDesc a c := by
    intro a b c hab hbc
    simp only [createdAtDesc, decide_eq_true_eq] at *
    exact le_trans hbc hab
  have htotal : ∀ a b : ProductRow, createdAtDesc a b || createdAtDesc b a := by
    intro a b
    simp only [createdAtDesc, Bool.or_eq_true, decide_eq_true_eq]
    exact le_total b.created_at a.created_at
  have h := List.sorted_mergeSort htrans htotal db
  exact h.imp fun hab => by simpa [createdAtDesc] using hab

/-- renderFieldsFrom keeps the length of the pair list. -/
theorem renderFieldsFrom_length (sets : List (Col × JSValue)) :
    ∀ n, (renderFieldsFrom n sets).length = sets.length := by
  induction sets with
  | nil => exact fun n => rfl
  | cons fv rest ih =>
    intro n
    simp [renderFieldsFrom, ih (n + 1)]

/-- renderFields keeps the length of the pair list. -/
theorem renderFields_length (sets : List (Col × JSValue)) :
    (renderFields sets).length = sets.length :=
  renderFieldsFrom_length sets 0

/-- The entry at position i of the rendered fields is its column name
with placeholder number n + i + 1. -/
theorem renderFieldsFrom_getElem (sets : List (Col × JSValue)) :
    ∀ n i fv, sets[i]? = some fv →
      (renderFieldsFrom n sets)[i]? =
        some (fieldColumn fv.1 ++ " = $" ++ toString (n + i + 1)) := by
  induction sets with
  | nil =>
    intro n i fv h
    simp at h
  | cons x rest ih =>
    intro n i fv h
    cases i with
    | zero =>
      simp only [List.getElem?_cons_zero, Option.some.injEq] at h
      subst h
      simp [renderFieldsFrom]
    | succ j =>
      simp only [List.getElem?_cons_succ] at h
      have hrec := ih (n + 1) j fv h
      have harith : n + 1 + j + 1 = n + (j + 1) + 1 := by omega
      rw [harith] at hrec
      simpa [renderFieldsFrom] using hrec

/-- The shape of updateProduct after successful validation, with the
query call made explicit. -/
theorem updateProduct_of_ok (q : Oracle) (pid : Int) (data : UpdateData)
    (sets : List (Col × JSValue)) (h : buildUpdateSets data = Except.ok sets) :
    updateProduct q pid data =
      match q (updateQueryText (renderFields sets))
          (sets.map Prod.snd ++ [JSValue.num pid]) with
      | Except.error e =>
        (Envelope.failure e,
         [⟨updateQueryText (renderFields sets), sets.map Prod.snd ++ [JSValue.num pid]⟩])
      | Except.ok res =>
        match res.rows with
        | [] =>
          (Envelope.failure "Product not found.",
           [⟨updateQueryText (renderFields sets), sets.map Prod.snd ++ [JSValue.num pid]⟩])
        | r :: _ =>
          (Envelope.product (some r),
           [⟨updateQueryText (renderFields sets), sets.map Prod.snd ++ [JSValue.num pid]⟩]) := by
  unfold updateProduct
  rw [h]

/-- C9: for every input passing validation, updateProduct issues exactly
one query whose parameter array is the SET values in clause order
followed by product_id as the last element, and whose text sets the i-th
included column (0-based) with placeholder i+1 and filters on id with
placeholder k+1 for k included columns. -/
theorem C9_update_query_wellformed (q : Oracle) (pid : Int)
    (data : UpdateData) (sets : List (Col × JSValue))
    (h : buildUpdateSets data = Except.ok sets) :
    ∃ c : QueryCall,
      (updateProduct q pid data).2 = [c] ∧
      c.params = sets.map Prod.snd ++ [JSValue.num pid] ∧
      c.params.length = sets.length + 1 ∧
      c.params.getLast? = some (JSValue.num pid) ∧
      (∀ i fv, sets[i]? = some fv →
        c.params[i]? = some fv.2 ∧
        (renderFields sets)[i]? =
          some (fieldColumn fv.1 ++ " = $" ++ toString (i + 1))) ∧
      c.text =
        "\n      UPDATE products \n      SET " ++
          String.intercalate ", " (renderFields sets) ++
        " \n      WHERE id = $" ++ toString (sets.length + 1) ++
        " \n      RETURNING id, name, description, price, category_id, image_url, created_at, updated_at;\n    " := by
  refine ⟨⟨updateQueryText (renderFields sets), sets.map Prod.snd ++ [JSValue.num pid]⟩,
    ?_, rfl, ?_, List.getLast?_concat _, ?_, ?_⟩
  · rw [updateProduct_of_ok q pid data sets h]
    cases q (updateQueryText (renderFields sets)) (sets.map Prod.snd ++ [JSValue.num pid]) with
    | error e => rfl
    | ok res =>
      obtain ⟨rows, rc⟩ := res
      cases rows <;> rfl
  · simp
  · intro i fv hfv
    have hi : i < sets.length := by
      by_contra hge
      rw [List.getElem?_eq_none (Nat.le_of_not_lt hge)] at hfv
      exact Option.noConfusion hfv
    constructor
    · rw [List.getElem?_append_left (by simpa using hi)]
      simp [hfv]
    · have hrec := renderFieldsFrom_getElem sets 0 i fv hfv
      simpa using hrec
  · show updateQueryText (renderFields sets) = _
    unfold updateQueryText
    rw [renderFields_length]

/-- Witness for C9: updating name and price of product 7. -/
theorem C9_update_query_wellformed_witness :
    ∃ c : QueryCall,
      (updateProduct sampleOkOracle 7 { name := some "Bass", price := some 250 }).2 = [c] ∧
      c.params = [(Col.name, JSValue.str "Bass"), (Col.price, JSValue.num 250)].map Prod.snd ++
        [JSValue.num 7] ∧
      c.params.length = [(Col.name, JSValue.str "Bass"), (Col.price, JSValue.num 250)].length + 1 ∧
      c.params.getLast? = some (JSValue.num 7) ∧
      (∀ i fv, [(Col.name, JSValue.str "Bass"), (Col.price, JSValue.num 250)][i]? = some fv →
        c.params[i]? = some fv.2 ∧
        (renderFields [(Col.name, JSValue.str "Bass"), (Col.price, JSValue.num 250)])[i]? =
          some (fieldColumn fv.1 ++ " = $" ++ toString (i + 1))) ∧
      c.text =
        "\n      UPDATE products \n      SET " ++
          String.intercalate ", "
            (renderFields [(Col.name, JSValue.str "Bass"), (Col.price, JSValue.num 250)]) ++
        " \n      WHERE id = $" ++
          toString ([(Col.name, JSValue.str "Bass"), (Col.price, JSValue.num 250)].length + 1) ++
        " \n      RETURNING id, name, description, price, category_id, image_url, created_at, updated_at;\n    " :=
  C9_update_query_wellformed sampleOkOracle 7 { name := some "Bass", price := some 250 }
    [(Col.name, JSValue.str "Bass"), (Col.price, JSValue.num 250)] rfl
